import Mathlib

/-!
Shallow embedding of the EmailBuilder MJML renderer core
(`src/renderer/src/templates/generator.js`, the four block components, and
the `POST /render` handler), together with theorems settling the spec
claims about token resolution, block compilation and error handling.

JavaScript idioms are modelled explicitly:
* template-literal interpolation becomes string concatenation (`++`);
* `String.prototype.trim()` becomes `jsTrim` (drop leading/trailing
  whitespace characters);
* `Array.prototype.join(sep)` becomes `jsJoin sep`;
* truthiness of a possibly-`undefined` string (`imageUrl ? … : ''`,
  `!templateType`) becomes `jsTruthy : Option String → Bool`
  (`undefined` and `""` are falsy);
* `console.warn` messages emitted during block compilation are collected
  as an explicit warning list alongside the produced markup.
-/

namespace EmailBuilder

/-! ## JavaScript string-primitive models -/

/-- Model of `String.prototype.trim()` on the character list: drop
whitespace from the front, then from the back. -/
def jsTrimChars (l : List Char) : List Char :=
  ((l.dropWhile Char.isWhitespace).reverse.dropWhile Char.isWhitespace).reverse

/-- Model of JavaScript `s.trim()`. -/
def jsTrim (s : String) : String :=
  String.mk (jsTrimChars s.data)

/-- Model of JavaScript `Array.prototype.join(sep)`. -/
def jsJoin (sep : String) : List String → String
  | [] => ""
  | [a] => a
  | a :: b :: rest => a ++ sep ++ jsJoin sep (b :: rest)

/-- Truthiness of a possibly-`undefined` JavaScript string:
`undefined` and the empty string are falsy. -/
def jsTruthy : Option String → Bool
  | none => false
  | some s => s ≠ ""

/-- Number of occurrences of `pat` as a contiguous substring
(counted at every start position). -/
def countInfix (pat l : List Char) : Nat :=
  l.tails.countP (fun t => pat.isPrefixOf t)

/-! ## Design tokens (`loadDesignTokens`, generator.js lines 61–128) -/

structure ColorTokens where
  primary : String
  onPrimary : String
  secondary : String
  background : String
  surface : String
  text : String
  textSecondary : String
deriving Repr, DecidableEq

structure FontTokens where
  family : String
  size : String
  weight : String
  lineHeight : String
deriving Repr, DecidableEq

structure FontsTokens where
  heading : FontTokens
  body : FontTokens
deriving Repr, DecidableEq

structure SpacingTokens where
  xs : String
  sm : String
  md : String
  lg : String
  xl : String
  xxl : String
deriving Repr, DecidableEq

structure RadiusTokens where
  button : String
  card : String
deriving Repr, DecidableEq

structure DesignTokens where
  colors : ColorTokens
  fonts : FontsTokens
  spacing : SpacingTokens
  radius : RadiusTokens
deriving Repr, DecidableEq

/-- The base default token set (`defaultTokens` in `loadDesignTokens`). -/
def defaultTokens : DesignTokens :=
  { colors :=
      { primary := "#2563eb"
        onPrimary := "#ffffff"
        secondary := "#64748b"
        background := "#f8fafc"
        surface := "#ffffff"
        text := "#1e293b"
        textSecondary := "#64748b" }
    fonts :=
      { heading :=
          { family := "Arial, sans-serif"
            size := "24px"
            weight := "700"
            lineHeight := "1.2" }
        body :=
          { family := "Arial, sans-serif"
            size := "16px"
            weight := "400"
            lineHeight := "1.5" } }
    spacing :=
      { xs := "4px"
        sm := "8px"
        md := "16px"
        lg := "24px"
        xl := "32px"
        xxl := "48px" }
    radius :=
      { button := "6px"
        card := "8px" } }

/-- Each entry of the source's `templateOverrides` object is a record with a
single key `colors`, whose value spreads `defaultTokens.colors` and then
replaces `primary` (`{...defaultTokens.colors, primary: …}`). -/
structure TemplateOverride where
  colors : ColorTokens
deriving Repr, DecidableEq

/-- Key lookup `templateOverrides[templateType]` in `loadDesignTokens`:
the object literal has exactly the three category keys. -/
def templateOverrides (templateType : String) : Option TemplateOverride :=
  if templateType = "cart_abandon" then
    some { colors := { defaultTokens.colors with primary := "#dc2626" } }
  else if templateType = "post_purchase" then
    some { colors := { defaultTokens.colors with primary := "#059669" } }
  else if templateType = "order_confirmation" then
    some { colors := { defaultTokens.colors with primary := "#2563eb" } }
  else
    none

/-- `loadDesignTokens`: `{...defaultTokens, ...(templateOverrides[templateType] || {})}`.
The spread replaces exactly the top-level keys present in the override
object — here only `colors` (itself a full colour record). -/
def loadDesignTokens (templateType : String) : DesignTokens :=
  match templateOverrides templateType with
  | some ov => { defaultTokens with colors := ov.colors }
  | none => defaultTokens

/-! ## Content blocks -/

/-- One product reference inside Items/Recommendations blocks. -/
structure Item where
  sku : String
  name : String
  price : String
  imageUrl : String
  url : String
deriving Repr, DecidableEq

/-- Hero block data. `subcopy`/`imageUrl` may be absent (`undefined`), and
`customHtml` is the optional custom-HTML payload of the schema. -/
structure HeroBlock where
  headline : String
  subcopy : Option String
  imageUrl : Option String
  customHtml : Option String
deriving Repr, DecidableEq

/-- Items block data; `items` is `none` when the field is absent. -/
structure ItemsBlock where
  title : String
  items : Option (List Item)
deriving Repr, DecidableEq

/-- Recommendations block data; `items` is `none` when the field is absent. -/
structure RecommendationsBlock where
  title : String
  items : Option (List Item)
deriving Repr, DecidableEq

/-- Footer block data. -/
structure FooterBlock where
  legal : String
  preferencesUrl : String
  unsubscribeUrl : String
deriving Repr, DecidableEq

/-- A content block as dispatched on by `generateMJML`'s `switch (block.type)`.
The four known tags are the four typed variants; `other tag` is a block
whose `type` string is any other value (the `default` arm). -/
inductive Block where
  | hero (b : HeroBlock)
  | items (b : ItemsBlock)
  | recommendations (b : RecommendationsBlock)
  | footer (b : FooterBlock)
  | other (tag : String)
deriving Repr, DecidableEq

/-- Whether a block falls into the `default` arm of the dispatch switch. -/
def isUnknownBlock : Block → Bool
  | .other _ => true
  | _ => false

/-! ## Hero component (`src/renderer/src/components/hero.js`) -/

/-- `heroComponent(block, tokens)`: the template literal of hero.js with
the two conditional sub-templates (`imageUrl ? … : ''`, `subcopy ? … : ''`),
followed by `.trim()`.  Note the source destructures only
`{ headline, subcopy, imageUrl }`: `customHtml` is never read. -/
def heroComponent (block : HeroBlock) (tokens : DesignTokens) : String :=
  let headline := block.headline
  let subcopy := block.subcopy
  let imageUrl := block.imageUrl
  jsTrim
    ("\n    <mj-section background-color=\"" ++ tokens.colors.surface
      ++ "\" css-class=\"section-spacing\">\n      <mj-column>\n        "
      ++ (if jsTruthy imageUrl then
            "\n        <mj-image\n          src=\"" ++ imageUrl.getD ""
            ++ "\"\n          alt=\"" ++ headline
            ++ "\"\n          align=\"center\"\n          border-radius=\"" ++ tokens.radius.card
            ++ "\"\n          padding-bottom=\"" ++ tokens.spacing.lg
            ++ "\"\n        />\n        "
          else "")
      ++ "\n\n        <mj-text\n          align=\"center\"\n          font-size=\"" ++ tokens.fonts.heading.size
      ++ "\"\n          font-weight=\"" ++ tokens.fonts.heading.weight
      ++ "\"\n          line-height=\"" ++ tokens.fonts.heading.lineHeight
      ++ "\"\n          color=\"" ++ tokens.colors.text
      ++ "\"\n          padding-bottom=\"" ++ tokens.spacing.md
      ++ "\"\n        >\n          " ++ headline
      ++ "\n        </mj-text>\n\n        "
      ++ (if jsTruthy subcopy then
            "\n        <mj-text\n          align=\"center\"\n          font-size=\"" ++ tokens.fonts.body.size
            ++ "\"\n          color=\"" ++ tokens.colors.textSecondary
            ++ "\"\n          padding-bottom=\"" ++ tokens.spacing.lg
            ++ "\"\n        >\n          " ++ subcopy.getD ""
            ++ "\n        </mj-text>\n        "
          else "")
      ++ "\n      </mj-column>\n    </mj-section>\n  ")

/-! ## Items component (`src/renderer/src/components/items.js`) -/

/-- The per-item template of items.js (`items.map(item => …)`). -/
def itemColumn (tokens : DesignTokens) (item : Item) : String :=
  "\n    <mj-column width=\"33.33%\" padding=\"" ++ tokens.spacing.sm
    ++ "\">\n      <mj-image\n        src=\"" ++ item.imageUrl
    ++ "\"\n        alt=\"" ++ item.name
    ++ "\"\n        align=\"center\"\n        border-radius=\"" ++ tokens.radius.card
    ++ "\"\n        padding-bottom=\"" ++ tokens.spacing.sm
    ++ "\"\n        href=\"" ++ item.url
    ++ "\"\n      />\n\n      <mj-text\n        align=\"center\"\n        font-size=\"14px\"\n        font-weight=\"600\"\n        color=\"" ++ tokens.colors.text
    ++ "\"\n        padding-bottom=\"" ++ tokens.spacing.xs
    ++ "\"\n      >\n        " ++ item.name
    ++ "\n      </mj-text>\n\n      <mj-text\n        align=\"center\"\n        font-size=\"" ++ tokens.fonts.body.size
    ++ "\"\n        color=\"" ++ tokens.colors.primary
    ++ "\"\n        font-weight=\"700\"\n        padding-bottom=\"" ++ tokens.spacing.sm
    ++ "\"\n      >\n        " ++ item.price
    ++ "\n      </mj-text>\n\n      <mj-button\n        href=\"" ++ item.url
    ++ "\"\n        background-color=\"" ++ tokens.colors.primary
    ++ "\"\n        color=\"" ++ tokens.colors.onPrimary
    ++ "\"\n        font-size=\"14px\"\n        padding=\"" ++ tokens.spacing.xs ++ " " ++ tokens.spacing.md
    ++ "\"\n        border-radius=\"" ++ tokens.radius.button
    ++ "\"\n      >\n        Visualizza\n      </mj-button>\n    </mj-column>\n  "

/-- The final template literal of items.js around `itemsMarkup`
(title section, then the section holding the item columns). -/
def itemsSections (tokens : DesignTokens) (title itemsMarkup : String) : String :=
  "\n    <mj-section background-color=\"" ++ tokens.colors.background
    ++ "\" css-class=\"section-spacing\">\n      <mj-column>\n        <mj-text\n          align=\"center\"\n          font-size=\"" ++ tokens.fonts.heading.size
    ++ "\"\n          font-weight=\"" ++ tokens.fonts.heading.weight
    ++ "\"\n          color=\"" ++ tokens.colors.text
    ++ "\"\n          padding-bottom=\"" ++ tokens.spacing.lg
    ++ "\"\n        >\n          " ++ title
    ++ "\n        </mj-text>\n      </mj-column>\n    </mj-section>\n\n    <mj-section background-color=\"" ++ tokens.colors.background
    ++ "\">\n      " ++ itemsMarkup
    ++ "\n    </mj-section>\n  "

/-- `itemsComponent(block, tokens)`: early `''` return when `items` is
absent or empty (`!items || items.length === 0`); otherwise every item is
mapped through the column template (no cap) and joined with `''`. -/
def itemsComponent (block : ItemsBlock) (tokens : DesignTokens) : String :=
  match block.items with
  | none => ""
  | some items =>
    if items.length = 0 then ""
    else
      let itemsMarkup := jsJoin "" (items.map (itemColumn tokens))
      jsTrim (itemsSections tokens block.title itemsMarkup)

/-! ## Recommendations component (`src/unnamed/part_002`, lines 1–80) -/

/-- The per-item template of the recommendations component
(`items.slice(0, 3).map(item => …)`); outlined button, label "Scopri". -/
def recItemColumn (tokens : DesignTokens) (item : Item) : String :=
  "\n    <mj-column width=\"33.33%\" padding=\"" ++ tokens.spacing.sm
    ++ "\">\n      <mj-image\n        src=\"" ++ item.imageUrl
    ++ "\"\n        alt=\"" ++ item.name
    ++ "\"\n        align=\"center\"\n        border-radius=\"" ++ tokens.radius.card
    ++ "\"\n        padding-bottom=\"" ++ tokens.spacing.sm
    ++ "\"\n        href=\"" ++ item.url
    ++ "\"\n      />\n\n      <mj-text\n        align=\"center\"\n        font-size=\"14px\"\n        font-weight=\"600\"\n        color=\"" ++ tokens.colors.text
    ++ "\"\n        padding-bottom=\"" ++ tokens.spacing.xs
    ++ "\"\n      >\n        " ++ item.name
    ++ "\n      </mj-text>\n\n      <mj-text\n        align=\"center\"\n        font-size=\"" ++ tokens.fonts.body.size
    ++ "\"\n        color=\"" ++ tokens.colors.primary
    ++ "\"\n        font-weight=\"700\"\n        padding-bottom=\"" ++ tokens.spacing.sm
    ++ "\"\n      >\n        " ++ item.price
    ++ "\n      </mj-text>\n\n      <mj-button\n        href=\"" ++ item.url
    ++ "\"\n        background-color=\"transparent\"\n        color=\"" ++ tokens.colors.primary
    ++ "\"\n        font-size=\"14px\"\n        padding=\"" ++ tokens.spacing.xs ++ " " ++ tokens.spacing.md
    ++ "\"\n        border=\"" ++ tokens.colors.primary
    ++ " 1px solid\"\n        border-radius=\"" ++ tokens.radius.button
    ++ "\"\n      >\n        Scopri\n      </mj-button>\n    </mj-column>\n  "

/-- The final template literal of the recommendations component around
`itemsMarkup` (both sections on the `surface` colour). -/
def recSections (tokens : DesignTokens) (title itemsMarkup : String) : String :=
  "\n    <mj-section background-color=\"" ++ tokens.colors.surface
    ++ "\" css-class=\"section-spacing\">\n      <mj-column>\n        <mj-text\n          align=\"center\"\n          font-size=\"" ++ tokens.fonts.heading.size
    ++ "\"\n          font-weight=\"" ++ tokens.fonts.heading.weight
    ++ "\"\n          color=\"" ++ tokens.colors.text
    ++ "\"\n          padding-bottom=\"" ++ tokens.spacing.lg
    ++ "\"\n        >\n          " ++ title
    ++ "\n        </mj-text>\n      </mj-column>\n    </mj-section>\n\n    <mj-section background-color=\"" ++ tokens.colors.surface
    ++ "\">\n      " ++ itemsMarkup
    ++ "\n    </mj-section>\n  "

/-- `recommendationsComponent(block, tokens)`: early `''` return when
`items` is absent or empty; otherwise only `items.slice(0, 3)` is mapped
through the column template and joined with `''`. -/
def recommendationsComponent (block : RecommendationsBlock) (tokens : DesignTokens) : String :=
  match block.items with
  | none => ""
  | some items =>
    if items.length = 0 then ""
    else
      let itemsMarkup := jsJoin "" ((items.take 3).map (recItemColumn tokens))
      jsTrim (recSections tokens block.title itemsMarkup)

/-! ## Footer component (`footerComponent`, src/frontend/src/types/template.ts tail) -/

/-- `footerComponent(block, tokens)`: legal text plus the preferences and
unsubscribe links, followed by `.trim()`. -/
def footerComponent (block : FooterBlock) (tokens : DesignTokens) : String :=
  jsTrim
    ("\n    <mj-section background-color=\"" ++ tokens.colors.secondary
      ++ "\" padding-top=\"" ++ tokens.spacing.xxl
      ++ "\">\n      <mj-column>\n        <mj-divider border-color=\"" ++ tokens.colors.textSecondary
      ++ "\" border-width=\"1px\" padding-bottom=\"" ++ tokens.spacing.lg
      ++ "\" />\n\n        <mj-text\n          align=\"center\"\n          font-size=\"12px\"\n          color=\"" ++ tokens.colors.textSecondary
      ++ "\"\n          padding-bottom=\"" ++ tokens.spacing.md
      ++ "\"\n        >\n          " ++ block.legal
      ++ "\n        </mj-text>\n\n        <mj-text\n          align=\"center\"\n          font-size=\"12px\"\n          color=\"" ++ tokens.colors.textSecondary
      ++ "\"\n          padding-bottom=\"" ++ tokens.spacing.lg
      ++ "\"\n        >\n          <a href=\"" ++ block.preferencesUrl
      ++ "\" style=\"color: " ++ tokens.colors.textSecondary
      ++ "; text-decoration: underline;\">\n            Gestisci preferenze\n          </a>\n          &nbsp;|&nbsp;\n          <a href=\"" ++ block.unsubscribeUrl
      ++ "\" style=\"color: " ++ tokens.colors.textSecondary
      ++ "; text-decoration: underline;\">\n            Annulla iscrizione\n          </a>\n        </mj-text>\n      </mj-column>\n    </mj-section>\n  ")

/-! ## Document generator (`generateMJML`, generator.js lines 11–54) -/

/-- The template schema destructured by `generateMJML`
(`{ locale, templateType, subject, preheader, blocks }`).  Fields that a
request may omit are `Option`s; interpolating an absent one follows the
JavaScript template-literal rule (`undefined` prints as "undefined"). -/
structure Template where
  locale : Option String
  templateType : String
  subject : Option String
  preheader : Option String
  blocks : List Block
deriving Repr, DecidableEq

/-- JavaScript template-literal interpolation of a possibly-`undefined`
string value. -/
def jsInterp : Option String → String
  | none => "undefined"
  | some s => s

/-- The `switch (block.type)` of `generateMJML`: the produced fragment
together with the `console.warn` messages the arm emits (only the
`default` arm warns, with `Unknown block type: ${block.type}`, and
returns `''`). -/
def compileBlock (tokens : DesignTokens) : Block → String × List String
  | .hero b => (heroComponent b tokens, [])
  | .items b => (itemsComponent b tokens, [])
  | .recommendations b => (recommendationsComponent b tokens, [])
  | .footer b => (footerComponent b tokens, [])
  | .other tag => ("", ["Unknown block type: " ++ tag])

/-- The ordered fragments `blocks.map(block => switch …)`. -/
def fragmentsOf (tokens : DesignTokens) (blocks : List Block) : List String :=
  blocks.map (fun b => (compileBlock tokens b).1)

/-- `blocks.map(…).join('\n')`. -/
def mjmlBlocksOf (tokens : DesignTokens) (blocks : List Block) : String :=
  jsJoin "\n" (fragmentsOf tokens blocks)

/-- The warnings emitted while compiling the blocks, in emission order. -/
def warningsOf (tokens : DesignTokens) (blocks : List Block) : List String :=
  (blocks.map (fun b => (compileBlock tokens b).2)).flatten

/-- The document envelope of `generateMJML` (lines 33–53): head with
title/preview, global `mj-attributes` and `mj-style` derived from the
tokens, then the body holding the concatenated block markup; `.trim()`ed. -/
def mjmlEnvelope (tokens : DesignTokens) (subject preheader mjmlBlocks : String) : String :=
  jsTrim
    ("\n<mjml>\n  <mj-head>\n    <mj-title>" ++ subject
      ++ "</mj-title>\n    <mj-preview>" ++ preheader
      ++ "</mj-preview>\n\n    <mj-attributes>\n      <mj-text color=\"" ++ tokens.colors.text
      ++ "\" font-family=\"" ++ tokens.fonts.body.family
      ++ "\" font-size=\"" ++ tokens.fonts.body.size
      ++ "\" line-height=\"" ++ tokens.fonts.body.lineHeight
      ++ "\" />\n      <mj-button background-color=\"" ++ tokens.colors.primary
      ++ "\" color=\"" ++ tokens.colors.onPrimary
      ++ "\" font-family=\"" ++ tokens.fonts.body.family
      ++ "\" border-radius=\"" ++ tokens.radius.button
      ++ "\" />\n    </mj-attributes>\n\n    <mj-style>\n      .content-padding \x7b padding: " ++ tokens.spacing.md
      ++ " " ++ tokens.spacing.lg
      ++ "; \x7d\n      .section-spacing \x7b padding-top: " ++ tokens.spacing.xl
      ++ "; padding-bottom: " ++ tokens.spacing.xl
      ++ "; \x7d\n    </mj-style>\n  </mj-head>\n\n  <mj-body background-color=\"" ++ tokens.colors.background
      ++ "\">\n    " ++ mjmlBlocks
      ++ "\n  </mj-body>\n</mjml>")

/-- `generateMJML(template)`: resolve the tokens for the template type,
compile the blocks in document order, join the fragments with `'\n'`, and
splice them into the envelope.  The second component collects the
`console.warn` messages emitted along the way. -/
def generateMJML (template : Template) : String × List String :=
  let tokens := loadDesignTokens template.templateType
  let mjmlBlocks := mjmlBlocksOf tokens template.blocks
  (mjmlEnvelope tokens (jsInterp template.subject) (jsInterp template.preheader) mjmlBlocks,
    warningsOf tokens template.blocks)

/-! ## `POST /render` handler (`src/unnamed/part_002`, lines 105–150) -/

/-- The JSON body of a `POST /render` request; every field may be absent. -/
structure RenderRequest where
  locale : Option String
  templateType : Option String
  subject : Option String
  preheader : Option String
  blocks : Option (List Block)
deriving Repr, DecidableEq

/-- The handler's HTTP outcome: an error status with its `error` payload,
or a success JSON `{ mjml, html, warnings }`. -/
inductive RenderResponse where
  | clientError (status : Nat) (error : String)
  | ok (mjml : String) (html : String) (warnings : List String)
deriving Repr, DecidableEq

/-- The `POST /render` handler.  The guard is the source's
`if (!templateType || !blocks)` (status 400, pipeline never entered);
otherwise `generateMJML` runs and the external `mjml()` lowering —
abstracted as the `lower` argument — produces the final HTML and the
soft-validation warnings echoed in the response. -/
def handleRender (lower : String → String × List String)
    (req : RenderRequest) : RenderResponse :=
  if !jsTruthy req.templateType || req.blocks.isNone then
    RenderResponse.clientError 400 "Missing required fields: templateType, blocks"
  else
    let template : Template :=
      { locale := req.locale
        templateType := req.templateType.getD ""
        subject := req.subject
        preheader := req.preheader
        blocks := req.blocks.getD [] }
    let mjmlContent := (generateMJML template).1
    let lowered := lower mjmlContent
    RenderResponse.ok mjmlContent lowered.1 lowered.2

/-! ## Claims about token resolution -/

/-- C1: for every template category in the known enumeration
(`cart_abandon`, `post_purchase`, `order_confirmation`), the token set
returned by `loadDesignTokens` agrees with the base default token set on
every leaf except `colors.primary`: `colors.secondary` and every other
sibling leaf of the overridden leaf, and all of the `fonts`, `spacing`
and `radius` subtrees, equal the base values. -/
theorem known_category_preserves_siblings (t : String)
    (h : t = "cart_abandon" ∨ t = "post_purchase" ∨ t = "order_confirmation") :
    (loadDesignTokens t).colors.onPrimary = defaultTokens.colors.onPrimary ∧
    (loadDesignTokens t).colors.secondary = defaultTokens.colors.secondary ∧
    (loadDesignTokens t).colors.background = defaultTokens.colors.background ∧
    (loadDesignTokens t).colors.surface = defaultTokens.colors.surface ∧
    (loadDesignTokens t).colors.text = defaultTokens.colors.text ∧
    (loadDesignTokens t).colors.textSecondary = defaultTokens.colors.textSecondary ∧
    (loadDesignTokens t).fonts = defaultTokens.fonts ∧
    (loadDesignTokens t).spacing = defaultTokens.spacing ∧
    (loadDesignTokens t).radius = defaultTokens.radius := by
  rcases h with h | h | h <;> subst h <;> decide

/-- Witness for C1 at the category `cart_abandon`: overriding
`colors.primary` leaves `colors.secondary` at the base value. -/
theorem known_category_preserves_siblings_witness :
    (loadDesignTokens "cart_abandon").colors.secondary = defaultTokens.colors.secondary :=
  (known_category_preserves_siblings "cart_abandon" (Or.inl rfl)).2.1

/-- C5: for every category string outside the known enumeration,
`loadDesignTokens` returns the base default token set unchanged (it is a
total function, so it never raises). -/
theorem unknown_category_base_tokens (t : String)
    (h1 : t ≠ "cart_abandon") (h2 : t ≠ "post_purchase")
    (h3 : t ≠ "order_confirmation") :
    loadDesignTokens t = defaultTokens := by
  simp [loadDesignTokens, templateOverrides, h1, h2, h3]

/-- Witness for C5 at the unknown category `seasonal_sale`. -/
theorem unknown_category_base_tokens_witness :
    loadDesignTokens "seasonal_sale" = defaultTokens :=
  unknown_category_base_tokens "seasonal_sale" (by decide) (by decide) (by decide)

/-! ## Claims about empty item sequences -/

/-- C8: an Items block (and a Recommendations block) whose item sequence
is absent or empty compiles to exactly the empty string — no section
markup, title or container is emitted. -/
theorem empty_items_empty_fragment (tokens : DesignTokens)
    (b : ItemsBlock) (rb : RecommendationsBlock)
    (hb : b.items = none ∨ b.items = some [])
    (hrb : rb.items = none ∨ rb.items = some []) :
    itemsComponent b tokens = "" ∧ recommendationsComponent rb tokens = "" := by
  constructor
  · rcases hb with h | h <;> simp [itemsComponent, h]
  · rcases hrb with h | h <;> simp [recommendationsComponent, h]

/-- Witness for C8: an Items block with an absent sequence and a
Recommendations block with an empty sequence both produce `""`. -/
theorem empty_items_empty_fragment_witness :
    itemsComponent { title := "Il tuo carrello", items := none } defaultTokens = "" ∧
    recommendationsComponent { title := "Consigliati", items := some [] } defaultTokens = "" :=
  empty_items_empty_fragment defaultTokens
    { title := "Il tuo carrello", items := none }
    { title := "Consigliati", items := some [] }
    (Or.inl rfl) (Or.inr rfl)

/-! ## Claims about the render handler -/

/-- C9: a render request missing the `templateType` field or the `blocks`
field is rejected with the 400 client-error classification, whatever the
lowering step would do — the token-resolution/compilation pipeline never
runs and no render result (partial or complete) is produced. -/
theorem missing_fields_rejected (lower : String → String × List String)
    (req : RenderRequest)
    (h : req.templateType = none ∨ req.blocks = none) :
    handleRender lower req =
      RenderResponse.clientError 400 "Missing required fields: templateType, blocks" := by
  rcases h with h | h <;> simp [handleRender, jsTruthy, h]

/-- Witness for C9: a request with blocks but no `templateType` is
rejected with status 400. -/
theorem missing_fields_rejected_witness :
    handleRender (fun s => (s, []))
      { locale := some "it-IT", templateType := none, subject := some "S"
        preheader := some "P", blocks := some [] } =
      RenderResponse.clientError 400 "Missing required fields: templateType, blocks" :=
  missing_fields_rejected (fun s => (s, []))
    { locale := some "it-IT", templateType := none, subject := some "S"
      preheader := some "P", blocks := some [] }
    (Or.inl rfl)

/-! ## Claims about block dispatch and ordering -/

/-- A block handled by one of the four named arms of the dispatch switch
emits no warning. -/
theorem compileBlock_known_no_warning (tokens : DesignTokens) (b : Block)
    (h : isUnknownBlock b = false) : (compileBlock tokens b).2 = [] := by
  cases b <;> simp_all [compileBlock, isUnknownBlock]

/-- Compiling a list of blocks that are all handled by named arms emits
no warnings. -/
theorem warningsOf_eq_nil (tokens : DesignTokens) (bs : List Block)
    (h : ∀ b ∈ bs, isUnknownBlock b = false) : warningsOf tokens bs = [] := by
  induction bs with
  | nil => rfl
  | cons a l ih =>
    simp only [warningsOf, List.map_cons, List.flatten_cons] at *
    rw [compileBlock_known_no_warning tokens a (h a (by simp)),
      ih (fun b hb => h b (by simp [hb]))]
    rfl

/-- The warning stream distributes over concatenation of block lists. -/
theorem warningsOf_append (tokens : DesignTokens) (bs₁ bs₂ : List Block) :
    warningsOf tokens (bs₁ ++ bs₂) = warningsOf tokens bs₁ ++ warningsOf tokens bs₂ := by
  simp [warningsOf]

/-- C2: for a document whose block list holds exactly one block with an
unrecognized type tag (all others handled by named arms), `generateMJML`
succeeds, its warning stream is exactly the single message naming the
tag, and the unrecognized block contributes the empty fragment at its
position in the ordered fragment list. -/
theorem unknown_tag_one_warning_empty_fragment (t : Template)
    (pre post : List Block) (tag : String)
    (hblocks : t.blocks = pre ++ Block.other tag :: post)
    (hpre : ∀ b ∈ pre, isUnknownBlock b = false)
    (hpost : ∀ b ∈ post, isUnknownBlock b = false) :
    (generateMJML t).2 = ["Unknown block type: " ++ tag] ∧
    fragmentsOf (loadDesignTokens t.templateType) t.blocks =
      fragmentsOf (loadDesignTokens t.templateType) pre ++
        "" :: fragmentsOf (loadDesignTokens t.templateType) post := by
  constructor
  · show warningsOf _ _ = _
    rw [hblocks, warningsOf_append, warningsOf_eq_nil _ _ hpre,
      show warningsOf (loadDesignTokens t.templateType) (Block.other tag :: post) =
        ("Unknown block type: " ++ tag) :: warningsOf (loadDesignTokens t.templateType) post
        from rfl,
      warningsOf_eq_nil _ _ hpost]
    rfl
  · rw [hblocks]
    simp [fragmentsOf, compileBlock]

/-- Fixture: a hero block used by several concrete witnesses. -/
def exHero : HeroBlock :=
  { headline := "Hai dimenticato qualcosa"
    subcopy := some "Torna al carrello"
    imageUrl := none
    customHtml := none }

/-- Fixture: a document holding a hero block followed by a block with the
unknown tag `video`. -/
def exUnknownTemplate : Template :=
  { locale := some "it-IT"
    templateType := "cart_abandon"
    subject := some "S"
    preheader := some "P"
    blocks := [Block.hero exHero, Block.other "video"] }

/-- Witness for C2: concretely, the `video` block yields the single
warning `Unknown block type: video` and an empty fragment in second
position. -/
theorem unknown_tag_one_warning_empty_fragment_witness :
    (generateMJML exUnknownTemplate).2 = ["Unknown block type: video"] ∧
    fragmentsOf (loadDesignTokens exUnknownTemplate.templateType) exUnknownTemplate.blocks =
      fragmentsOf (loadDesignTokens exUnknownTemplate.templateType) [Block.hero exHero] ++
        "" :: fragmentsOf (loadDesignTokens exUnknownTemplate.templateType) [] :=
  unknown_tag_one_warning_empty_fragment exUnknownTemplate
    [Block.hero exHero] [] "video" rfl (by decide) (by decide)

/-- `Array.prototype.join` over the concatenation of two non-empty lists
splits around one separator. -/
theorem jsJoin_append (sep : String) (l₁ l₂ : List String)
    (h₁ : l₁ ≠ []) (h₂ : l₂ ≠ []) :
    jsJoin sep (l₁ ++ l₂) = jsJoin sep l₁ ++ sep ++ jsJoin sep l₂ := by
  induction l₁ with
  | nil => exact absurd rfl h₁
  | cons a l ih =>
    cases l with
    | nil =>
      cases l₂ with
      | nil => exact absurd rfl h₂
      | cons b t => simp [jsJoin]
    | cons c r =>
      have : jsJoin sep ((a :: c :: r) ++ l₂) = a ++ sep ++ jsJoin sep ((c :: r) ++ l₂) := by
        cases l₂ <;> simp [jsJoin]
      rw [this, ih (by simp)]
      simp [jsJoin, String.append_assoc]

/-- C6: fragments are concatenated in document order — the joined markup
of any split of the block list is the joined markup of the first part,
the separator, then the joined markup of the second part; in particular,
for the block sequence `[Footer, Hero]`, the concatenated output is the
footer fragment followed by the hero fragment. -/
theorem blocks_order_preserved :
    (∀ (tokens : DesignTokens) (bs₁ bs₂ : List Block), bs₁ ≠ [] → bs₂ ≠ [] →
        mjmlBlocksOf tokens (bs₁ ++ bs₂) =
          mjmlBlocksOf tokens bs₁ ++ "\n" ++ mjmlBlocksOf tokens bs₂) ∧
    (∀ (t : Template) (fb : FooterBlock) (hb : HeroBlock),
        t.blocks = [Block.footer fb, Block.hero hb] →
        mjmlBlocksOf (loadDesignTokens t.templateType) t.blocks =
          footerComponent fb (loadDesignTokens t.templateType) ++ "\n" ++
            heroComponent hb (loadDesignTokens t.templateType)) := by
  constructor
  · intro tokens bs₁ bs₂ h₁ h₂
    unfold mjmlBlocksOf fragmentsOf
    rw [List.map_append]
    exact jsJoin_append "\n" _ _ (by simpa using h₁) (by simpa using h₂)
  · intro t fb hb h
    rw [h]
    rfl

/-- Fixture: a footer block used by concrete witnesses. -/
def exFooter : FooterBlock :=
  { legal := "© 2024 Example"
    preferencesUrl := "https://example.com/preferences"
    unsubscribeUrl := "https://example.com/unsubscribe" }

/-- Fixture: a document whose blocks are `[Footer, Hero]`. -/
def exOrderTemplate : Template :=
  { locale := some "it-IT"
    templateType := "post_purchase"
    subject := some "Grazie"
    preheader := some "Il tuo ordine"
    blocks := [Block.footer exFooter, Block.hero exHero] }

/-- Witness for C6: on the `[Footer, Hero]` document the footer fragment
textually precedes the hero fragment in the concatenated output. -/
theorem blocks_order_preserved_witness :
    mjmlBlocksOf (loadDesignTokens exOrderTemplate.templateType) exOrderTemplate.blocks =
      footerComponent exFooter (loadDesignTokens exOrderTemplate.templateType) ++ "\n" ++
        heroComponent exHero (loadDesignTokens exOrderTemplate.templateType) :=
  blocks_order_preserved.2 exOrderTemplate exFooter exHero rfl

/-! ## Claims about optional hero fields -/

/-- An absent (`undefined`) string value is falsy. -/
@[simp] theorem jsTruthy_none : jsTruthy none = false := rfl

set_option maxRecDepth 10000 in
/-- C7: the two optional hero fields are omitted independently.  Every
hero block whose `imageUrl` is absent or the empty string (whatever its
`subcopy`) compiles exactly as if `imageUrl` were absent, and every hero
block whose `subcopy` is absent or the empty string (whatever its
`imageUrl`) compiles exactly as if `subcopy` were absent — the optional
part is omitted entirely, not rendered as an empty styled container.
Concretely, at the base tokens: a block with a present subcopy but empty
`imageUrl` contains no `<mj-image` element at all, and a block with a
present `imageUrl` but empty subcopy contains its one `<mj-image` element
and exactly one `<mj-text` element, the headline. -/
theorem hero_optional_fields_omitted :
    (∀ (tokens : DesignTokens) (b : HeroBlock), jsTruthy b.imageUrl = false →
        heroComponent b tokens = heroComponent { b with imageUrl := none } tokens) ∧
    (∀ (tokens : DesignTokens) (b : HeroBlock), jsTruthy b.subcopy = false →
        heroComponent b tokens = heroComponent { b with subcopy := none } tokens) ∧
    countInfix "<mj-image".data
      (heroComponent
        { headline := "H", subcopy := some "Sotto", imageUrl := some ""
          customHtml := none } defaultTokens).data = 0 ∧
    countInfix "<mj-text".data
      (heroComponent
        { headline := "H", subcopy := some "", imageUrl := some "https://img.example/x.png"
          customHtml := none } defaultTokens).data = 1 ∧
    countInfix "<mj-image".data
      (heroComponent
        { headline := "H", subcopy := some "", imageUrl := some "https://img.example/x.png"
          customHtml := none } defaultTokens).data = 1 := by
  refine ⟨?_, ?_, by decide, by decide, by decide⟩
  · intro tokens b h
    simp [heroComponent, h]
  · intro tokens b h
    simp [heroComponent, h]

/-- Witness for C7 at the two mixed hero blocks: empty `imageUrl` with a
present subcopy, and empty subcopy with a present `imageUrl`. -/
theorem hero_optional_fields_omitted_witness :
    heroComponent
        { headline := "H", subcopy := some "Sotto", imageUrl := some ""
          customHtml := none } defaultTokens =
      heroComponent
        { headline := "H", subcopy := some "Sotto", imageUrl := none
          customHtml := none } defaultTokens ∧
    heroComponent
        { headline := "H", subcopy := some "", imageUrl := some "https://img.example/x.png"
          customHtml := none } defaultTokens =
      heroComponent
        { headline := "H", subcopy := none, imageUrl := some "https://img.example/x.png"
          customHtml := none } defaultTokens :=
  ⟨hero_optional_fields_omitted.1 defaultTokens
      { headline := "H", subcopy := some "Sotto", imageUrl := some ""
        customHtml := none } (by decide),
    hero_optional_fields_omitted.2.1 defaultTokens
      { headline := "H", subcopy := some "", imageUrl := some "https://img.example/x.png"
        customHtml := none } (by decide)⟩

/-! ## Claim about `customHtml` (code bug) -/

set_option maxRecDepth 10000 in
/-- C3 (refuting the `customHtml` part): `heroComponent` never reads
`customHtml` — two hero blocks differing only in `customHtml` compile to
the same fragment — and concretely the fragment of a hero block carrying
a non-empty `customHtml` does not contain that payload at all, while the
repository's own orchestrator documentation states uploaded HTML is
embedded through `customHtml` for direct rendering. -/
theorem heroComponent_ignores_customHtml :
    (∀ (tokens : DesignTokens) (b : HeroBlock) (c₁ c₂ : Option String),
        heroComponent { b with customHtml := c₁ } tokens =
          heroComponent { b with customHtml := c₂ } tokens) ∧
    countInfix "CUSTOM-BLOCK-9Z".data
      (heroComponent
        { headline := "H", subcopy := none, imageUrl := none
          customHtml := some "<div>CUSTOM-BLOCK-9Z</div>" } defaultTokens).data = 0 := by
  exact ⟨fun _ _ _ _ => rfl, by decide⟩

/-! ## Claims about the item caps -/

/-- C4: a Recommendations block with a non-empty item sequence compiles
to the wrapper around the columns of at most the first 3 supplied items,
in order, regardless of how many were supplied: the rendered column list
has length `min 3 l.length`, its `i`-th entry is the column of the
`i`-th supplied item, and with 5 supplied items exactly 3 columns are
rendered. -/
theorem recommendations_renders_first_three (tokens : DesignTokens)
    (b : RecommendationsBlock) (l : List Item)
    (hitems : b.items = some l) (hne : l ≠ []) :
    recommendationsComponent b tokens =
      jsTrim (recSections tokens b.title
        (jsJoin "" ((l.take 3).map (recItemColumn tokens)))) ∧
    ((l.take 3).map (recItemColumn tokens)).length = min 3 l.length ∧
    (∀ i : Nat, i < 3 →
      ((l.take 3).map (recItemColumn tokens))[i]? =
        (l[i]?).map (recItemColumn tokens)) ∧
    (l.length = 5 → ((l.take 3).map (recItemColumn tokens)).length = 3) := by
  refine ⟨?_, by simp, ?_, ?_⟩
  · have hlen : l.length ≠ 0 := by simpa [List.length_eq_zero] using hne
    simp [recommendationsComponent, hitems, hlen]
  · intro i hi
    simp [List.getElem?_take, hi]
  · intro h5
    simp [h5]

/-- Fixture: five product references. -/
def exItems5 : List Item :=
  [{ sku := "S1", name := "Prodotto 1", price := "€10", imageUrl := "img1", url := "url1" },
   { sku := "S2", name := "Prodotto 2", price := "€20", imageUrl := "img2", url := "url2" },
   { sku := "S3", name := "Prodotto 3", price := "€30", imageUrl := "img3", url := "url3" },
   { sku := "S4", name := "Prodotto 4", price := "€40", imageUrl := "img4", url := "url4" },
   { sku := "S5", name := "Prodotto 5", price := "€50", imageUrl := "img5", url := "url5" }]

/-- Witness for C4: with the concrete 5-item list exactly 3 columns are
rendered, and the first rendered column is the first item's column. -/
theorem recommendations_renders_first_three_witness :
    recommendationsComponent { title := "Consigliati", items := some exItems5 } defaultTokens =
      jsTrim (recSections defaultTokens "Consigliati"
        (jsJoin "" ((exItems5.take 3).map (recItemColumn defaultTokens)))) ∧
    ((exItems5.take 3).map (recItemColumn defaultTokens))[0]? =
      (exItems5[0]?).map (recItemColumn defaultTokens) ∧
    ((exItems5.take 3).map (recItemColumn defaultTokens)).length = 3 :=
  have h := recommendations_renders_first_three defaultTokens
    { title := "Consigliati", items := some exItems5 } exItems5 rfl (by decide)
  ⟨h.1, h.2.2.1 0 (by decide), h.2.2.2 rfl⟩

/-- C10: an Items block with a non-empty item sequence compiles to the
wrapper around one column per supplied item, with no cap — the rendered
column list has the same length as the supplied sequence and its `i`-th
entry is the column of the `i`-th item. -/
theorem items_renders_every_item (tokens : DesignTokens)
    (b : ItemsBlock) (l : List Item)
    (hitems : b.items = some l) (hne : l ≠ []) :
    itemsComponent b tokens =
      jsTrim (itemsSections tokens b.title
        (jsJoin "" (l.map (itemColumn tokens)))) ∧
    (l.map (itemColumn tokens)).length = l.length ∧
    ∀ i : Nat, i < l.length →
      (l.map (itemColumn tokens))[i]? = (l[i]?).map (itemColumn tokens) := by
  refine ⟨?_, by simp, ?_⟩
  · have hlen : l.length ≠ 0 := by simpa [List.length_eq_zero] using hne
    simp [itemsComponent, hitems, hlen]
  · intro i _
    simp

/-- Witness for C10: with the concrete 5-item list all 5 columns are
rendered (4th and 5th included), and the fourth rendered column is the
fourth item's column. -/
theorem items_renders_every_item_witness :
    itemsComponent { title := "Il tuo carrello", items := some exItems5 } defaultTokens =
      jsTrim (itemsSections defaultTokens "Il tuo carrello"
        (jsJoin "" (exItems5.map (itemColumn defaultTokens)))) ∧
    (exItems5.map (itemColumn defaultTokens)).length = exItems5.length ∧
    (exItems5.map (itemColumn defaultTokens))[3]? =
      (exItems5[3]?).map (itemColumn defaultTokens) :=
  have h := items_renders_every_item defaultTokens
    { title := "Il tuo carrello", items := some exItems5 } exItems5 rfl (by decide)
  ⟨h.1, h.2.1, h.2.2 3 (by decide)⟩

end EmailBuilder
